import Mathlib

/-!
Shallow embedding of the `bevy_double_res` crate's core container,
`DoubleBuffer<T>` (src/double_buffer.rs), and proofs of the specified
properties.

Modelling conventions:
* The `u8` field `index` is a `Nat`; where Rust `u8` arithmetic can wrap
  we compute modulo 256 (two's-complement wrapping semantics, as in a
  release build).  The type-level guarantee `index < 256` appears as a
  hypothesis where a theorem needs it.
* A Rust operation that can panic (bounds-checked slot indexing when the
  selector is outside `{0,1}`) is modelled as returning `Option`, `none`
  standing for the panic.
* A mutation performed through a returned `&mut T` reference is modelled
  by a caller-supplied function `g : T → T` applied to the referenced
  slot; the closure passed to `apply` both mutates `next` and returns a
  result, so it is purified to `f : T → T → T × R` (arguments: value of
  `current`, old value of `next`; results: new value of `next`, returned
  value).
* Where a claim is about which physical slot a returned reference points
  at, we track positions (0 or 1 in the two-slot array) alongside values.
* `Clone::clone` on plain data is the identity, `clone`.
-/

namespace BevyDoubleRes

/-- Wrapping `u8` subtraction, `a - b` on `u8` computed modulo 256. -/
def u8_sub (a b : Nat) : Nat := (a % 256 + 256 - b % 256) % 256

/-- State of `DoubleBuffer<T>`: field `buffer: [T; 2]` is a pair (position 0,
position 1); field `index: u8` is a `Nat` (see module conventions). -/
structure DoubleBuffer (T : Type) where
  buffer : T × T
  index : Nat
  deriving DecidableEq

namespace DoubleBuffer

variable {T R : Type}

/-- Rust `DoubleBuffer::from_buffer(buffer, index)`: stores both fields with no
validation. -/
def from_buffer (buffer : T × T) (index : Nat) : DoubleBuffer T :=
  ⟨buffer, index⟩

/-- Rust `DoubleBuffer::set_index(value)`: overwrites `index` with no
validation. -/
def set_index (b : DoubleBuffer T) (value : Nat) : DoubleBuffer T :=
  { b with index := value }

/-- Rust `DoubleBuffer::current()`: `&self.buffer[self.index as usize]`;
bounds-checked, panics (`none`) when `index` is outside `{0,1}`. -/
def current (b : DoubleBuffer T) : Option T :=
  if b.index = 0 then some b.buffer.1
  else if b.index = 1 then some b.buffer.2
  else none

/-- Mutation through `DoubleBuffer::current_mut()`:
`&mut self.buffer[self.index as usize]`, the referenced slot updated by
`g`; panics (`none`) when `index` is outside `{0,1}`. -/
def mutate_current (b : DoubleBuffer T) (g : T → T) : Option (DoubleBuffer T) :=
  if b.index = 0 then some { b with buffer := (g b.buffer.1, b.buffer.2) }
  else if b.index = 1 then some { b with buffer := (b.buffer.1, g b.buffer.2) }
  else none

/-- Rust `DoubleBuffer::next()`: `&self.buffer[1 - self.index as usize]`; for
`index = 0` this is position 1, for `index = 1` position 0, and for any
other `u8` value the `usize` subtraction/indexing panics (`none`). -/
def next (b : DoubleBuffer T) : Option T :=
  if b.index = 0 then some b.buffer.2
  else if b.index = 1 then some b.buffer.1
  else none

/-- Mutation through `DoubleBuffer::next_mut()`:
`&mut self.buffer[1 - self.index as usize]`, the referenced slot updated
by `g`; panics (`none`) when `index` is outside `{0,1}`. -/
def mutate_next (b : DoubleBuffer T) (g : T → T) : Option (DoubleBuffer T) :=
  if b.index = 0 then some { b with buffer := (b.buffer.1, g b.buffer.2) }
  else if b.index = 1 then some { b with buffer := (g b.buffer.1, b.buffer.2) }
  else none

/-- Rust `DoubleBuffer::swap()`: `self.index = 1 - self.index`, `u8`
subtraction (wrapping, see module conventions). -/
def swap (b : DoubleBuffer T) : DoubleBuffer T :=
  { b with index := u8_sub 1 b.index }

/-- Rust `DoubleBuffer::split()`: `split_at(1)` on the array, so the pair of
slot values in fixed physical order (position 0, position 1),
independent of `index`. -/
def split (b : DoubleBuffer T) : T × T :=
  (b.buffer.1, b.buffer.2)

/-- Physical positions of the two references returned by `split()` (and
`split_mut()`): always (0, 1). -/
def split_pos (_ : DoubleBuffer T) : Nat × Nat :=
  (0, 1)

/-- Rust `DoubleBuffer::split_ordered()` values: `if self.index == 0` the
`split_mut` pair in order `(first, second)`, otherwise `(second, first)`.
The `else` branch covers every nonzero `index`. -/
def split_ordered (b : DoubleBuffer T) : T × T :=
  if b.index = 0 then (b.buffer.1, b.buffer.2)
  else (b.buffer.2, b.buffer.1)

/-- Physical positions of the two references returned by
`split_ordered()`: `(0, 1)` when `index = 0`, else `(1, 0)`. -/
def split_ordered_pos (b : DoubleBuffer T) : Nat × Nat :=
  if b.index = 0 then (0, 1)
  else (1, 0)

/-- Rust `DoubleBuffer::apply(f)`: runs `f` on the `split_ordered` pair
`(current, next-mut)` and returns `f`'s result; the state update writes
`f`'s new value into the `next` slot of `split_ordered` (position 1 when
`index = 0`, position 0 otherwise). -/
def apply (b : DoubleBuffer T) (f : T → T → T × R) : DoubleBuffer T × R :=
  if b.index = 0 then
    let r := f b.buffer.1 b.buffer.2
    ({ b with buffer := (b.buffer.1, r.1) }, r.2)
  else
    let r := f b.buffer.2 b.buffer.1
    ({ b with buffer := (r.1, b.buffer.2) }, r.2)

/-- State part of `apply` for a closure that only mutates `next`. -/
def applyState (b : DoubleBuffer T) (f : T → T → T) : DoubleBuffer T :=
  (apply b (fun c n => (f c n, Unit.unit))).1

/-- Rust `DoubleBuffer::new(value)`: `from_buffer([value.clone(), value], 0)`. -/
def new (value : T) : DoubleBuffer T :=
  from_buffer (id value, value) 0

/-- Rust `Default for DoubleBuffer<T>`: `Self::new(T::default())`, taking the
default value of `T` as the argument `d`. -/
def defaultBuf (d : T) : DoubleBuffer T :=
  new d

/-- Rust `From<T> for DoubleBuffer<T>`: `Self::new(value)`. -/
def fromValue (value : T) : DoubleBuffer T :=
  new value

/-- Rust `IntoDoubleBuffer::into_double_buf` for `&T`:
`DoubleBuffer::new(self.to_owned())`; `to_owned` on plain data is the
identity. -/
def into_double_buf (value : T) : DoubleBuffer T :=
  new (id value)

end DoubleBuffer

/-- One state-changing call on a `DoubleBuffer<T>` other than `set_index`
with an argument outside `{0,1}`: `swap()`, `set_index(v)` with `v ∈
{0,1}`, a mutation through `current_mut()`, `next_mut()` or
`buffer_mut()`, componentwise mutations through the `split_mut()` pair,
or `apply(f)`.  Read-only calls do not change the state. -/
inductive Op (T : Type) where
  | swapOp : Op T
  | setIndexOp : Fin 2 → Op T
  | currentMutOp : (T → T) → Op T
  | nextMutOp : (T → T) → Op T
  | bufferMutOp : (T × T → T × T) → Op T
  | splitMutOp : (T → T) → (T → T) → Op T
  | applyOp : (T → T → T) → Op T

/-- Effect of one operation on the container state.  A mutation through
`current_mut`/`next_mut` that would panic leaves the state unchanged
(the panic aborts before any write). -/
def step {T : Type} (b : DoubleBuffer T) : Op T → DoubleBuffer T
  | Op.swapOp => b.swap
  | Op.setIndexOp v => b.set_index v.val
  | Op.currentMutOp g => (b.mutate_current g).getD b
  | Op.nextMutOp g => (b.mutate_next g).getD b
  | Op.bufferMutOp g => { b with buffer := g b.buffer }
  | Op.splitMutOp g0 g1 => { b with buffer := (g0 b.buffer.1, g1 b.buffer.2) }
  | Op.applyOp f => b.applyState f

/-- Run a sequence of operations from a starting state. -/
def run {T : Type} (b : DoubleBuffer T) (ops : List (Op T)) : DoubleBuffer T :=
  ops.foldl step b

open DoubleBuffer

/-- Claim C2: for every starting state (slots, index) of `DoubleBuffer<T>`
— with no restriction on the value of the `u8` selector — executing
`swap()` twice restores the state exactly (wrapping `u8` arithmetic). -/
theorem spec_c2 {T : Type} (b : DoubleBuffer T) (h : b.index < 256) :
    b.swap.swap = b := by
  cases b with
  | mk buf i =>
    have h' : i < 256 := h
    have hi : u8_sub 1 (u8_sub 1 i) = i := by
      simp only [u8_sub]
      omega
    simp [DoubleBuffer.swap, hi]

/-- Witness for C2 at a concrete state whose index 7 lies outside
`{0,1}`. -/
theorem spec_c2_witness :
    (from_buffer ((1, 2) : Nat × Nat) 7).swap.swap = from_buffer ((1, 2) : Nat × Nat) 7 :=
  spec_c2 (from_buffer ((1, 2) : Nat × Nat) 7) (by decide)

/-- Claim C5: for index in `{0,1}`, `swap()` sets the index to `1 - index`
and leaves both slots unchanged; the slot `next()` returned before the
swap is returned by `current()` after it, and vice versa. -/
theorem spec_c5 {T : Type} (b : DoubleBuffer T) (h : b.index = 0 ∨ b.index = 1) :
    b.swap.index = 1 - b.index ∧ b.swap.buffer = b.buffer ∧
    b.swap.current = b.next ∧ b.swap.next = b.current := by
  rcases h with h | h <;>
    simp [DoubleBuffer.swap, u8_sub, DoubleBuffer.current, DoubleBuffer.next, h]

/-- Witness for C5 at a concrete state. -/
theorem spec_c5_witness :
    (from_buffer ((3, 4) : Nat × Nat) 0).swap.index = 1 ∧
    (from_buffer ((3, 4) : Nat × Nat) 0).swap.current = some 4 :=
  ⟨(spec_c5 (from_buffer ((3, 4) : Nat × Nat) 0) (Or.inl rfl)).1,
   (spec_c5 (from_buffer ((3, 4) : Nat × Nat) 0) (Or.inl rfl)).2.2.1⟩

/-- Claim C6: `new(v)` produces slots `[clone(v), v]` with index 0, so
`current()` and `next()` both return `v` and `index()` is 0; default
construction and the `From`/`Into` conversions coincide with `new`. -/
theorem spec_c6 {T : Type} (v d : T) :
    new v = from_buffer (id v, v) 0 ∧
    (new v).current = some v ∧ (new v).next = some v ∧ (new v).index = 0 ∧
    defaultBuf d = new d ∧ fromValue v = new v ∧ into_double_buf v = new v :=
  ⟨rfl, rfl, rfl, rfl, rfl, rfl, rfl⟩

/-- Claim C9: `from_buffer([a, b], 1)` has `current() == b` and
`next() == a`. -/
theorem spec_c9 {T : Type} (a b : T) :
    (from_buffer (a, b) 1).current = some b ∧
    (from_buffer (a, b) 1).next = some a :=
  ⟨rfl, rfl⟩

/-- Claim C1: for index in `{0,1}`, `apply(f)` followed by `swap()` makes
the value `f` wrote into the next slot observable via `current()` and
the previous current value observable via `next()`; concretely, from
`new((10, 20))` one component-exchanging apply+swap cycle gives
`current() == (20, 10)` and `next() == (10, 20)`, and a second cycle
returns to `current() == (10, 20)`, `next() == (20, 10)`. -/
theorem spec_c1 :
    (∀ (T : Type) (b : DoubleBuffer T) (f : T → T → T) (c n : T),
        b.index = 0 ∨ b.index = 1 → b.current = some c → b.next = some n →
          (b.applyState f).swap.current = some (f c n) ∧
          (b.applyState f).swap.next = some c) ∧
    ((new ((10, 20) : Nat × Nat)).applyState (fun c _ => (c.2, c.1))).swap.current
      = some (20, 10) ∧
    ((new ((10, 20) : Nat × Nat)).applyState (fun c _ => (c.2, c.1))).swap.next
      = some (10, 20) ∧
    (((new ((10, 20) : Nat × Nat)).applyState (fun c _ => (c.2, c.1))).swap.applyState
        (fun c _ => (c.2, c.1))).swap.current = some (10, 20) ∧
    (((new ((10, 20) : Nat × Nat)).applyState (fun c _ => (c.2, c.1))).swap.applyState
        (fun c _ => (c.2, c.1))).swap.next = some (20, 10) := by
  refine ⟨?_, by decide, by decide, by decide, by decide⟩
  intro T b f c n h hc hn
  rcases h with h | h <;>
    simp [DoubleBuffer.current, DoubleBuffer.next, DoubleBuffer.applyState,
      DoubleBuffer.apply, DoubleBuffer.swap, u8_sub, h] at hc hn ⊢ <;>
    subst hc <;> subst hn <;> simp

/-- Witness for the universally quantified part of C1 at a concrete
state. -/
theorem spec_c1_witness :
    ((from_buffer ((3, 4) : Nat × Nat) 0).applyState (fun c n => c + n)).swap.current
      = some 7 ∧
    ((from_buffer ((3, 4) : Nat × Nat) 0).applyState (fun c n => c + n)).swap.next
      = some 3 :=
  spec_c1.1 Nat (from_buffer ((3, 4) : Nat × Nat) 0) (fun c n => c + n) 3 4
    (Or.inl rfl) rfl rfl

/-- Panic shape shared by the four slot readers: `none` exactly when the
selector is outside `{0,1}`. -/
lemma ite_none_iff {α : Type} (i : Nat) (x y : α) :
    (if i = 0 then some x else if i = 1 then some y else none) = none ↔
      ¬(i = 0 ∨ i = 1) := by
  by_cases h0 : i = 0 <;> by_cases h1 : i = 1 <;> simp [h0, h1]

/-- Claim C3: an operation panics exactly when a slot read (`current`,
`current_mut`, `next`, `next_mut`) happens with the selector outside
`{0,1}` — an out-of-bounds access, modelled as `none`; `swap()`,
`split()`, `split_ordered()` and `apply(f)` are total, producing the
stated results for every `u8` selector value. -/
theorem spec_c3 {T R : Type} (b : DoubleBuffer T) (g : T → T)
    (f : T → T → T × R) :
    (b.current = none ↔ ¬(b.index = 0 ∨ b.index = 1)) ∧
    (b.mutate_current g = none ↔ ¬(b.index = 0 ∨ b.index = 1)) ∧
    (b.next = none ↔ ¬(b.index = 0 ∨ b.index = 1)) ∧
    (b.mutate_next g = none ↔ ¬(b.index = 0 ∨ b.index = 1)) ∧
    b.swap = { b with index := u8_sub 1 b.index } ∧
    b.split = (b.buffer.1, b.buffer.2) ∧
    b.split_ordered =
      (if b.index = 0 then (b.buffer.1, b.buffer.2) else (b.buffer.2, b.buffer.1)) ∧
    b.apply f =
      (if b.index = 0 then
        ({ b with buffer := (b.buffer.1, (f b.buffer.1 b.buffer.2).1) },
          (f b.buffer.1 b.buffer.2).2)
       else
        ({ b with buffer := ((f b.buffer.2 b.buffer.1).1, b.buffer.2) },
          (f b.buffer.2 b.buffer.1).2)) := by
  refine ⟨ite_none_iff b.index b.buffer.1 b.buffer.2, ?_, ?_, ?_, rfl, rfl, rfl, ?_⟩
  · exact ite_none_iff b.index { b with buffer := (g b.buffer.1, b.buffer.2) }
      { b with buffer := (b.buffer.1, g b.buffer.2) }
  · exact ite_none_iff b.index b.buffer.2 b.buffer.1
  · exact ite_none_iff b.index { b with buffer := (b.buffer.1, g b.buffer.2) }
      { b with buffer := (g b.buffer.1, b.buffer.2) }
  · by_cases h : b.index = 0 <;> simp [DoubleBuffer.apply, h]

/-- Witness for C3 at an invalid selector value. -/
theorem spec_c3_witness :
    (from_buffer ((5, 7) : Nat × Nat) 2).current = none ∧
    (from_buffer ((5, 7) : Nat × Nat) 2).next = none :=
  ⟨((spec_c3 (from_buffer ((5, 7) : Nat × Nat) 2) id (fun c n => (c + n, 0))).1).mpr
      (by decide),
   ((spec_c3 (from_buffer ((5, 7) : Nat × Nat) 2) id
      (fun c n => (c + n, 0))).2.2.1).mpr (by decide)⟩

/-- Claim C4: `split()` returns the two slots in fixed physical order
(positions 0 and 1), unchanged by a prior `swap()`; `split_ordered()`
returns positions `(index, 1 - index)`; the `split_ordered` view equals
the `split` view with components exchanged exactly when `index = 1`. -/
theorem spec_c4 {T : Type} (b : DoubleBuffer T)
    (h : b.index = 0 ∨ b.index = 1) :
    b.split_pos = (0, 1) ∧
    b.split = (b.buffer.1, b.buffer.2) ∧
    b.swap.split = b.split ∧
    b.swap.split_pos = b.split_pos ∧
    b.split_ordered_pos = (b.index, 1 - b.index) ∧
    (b.split_ordered_pos = (b.split_pos.2, b.split_pos.1) ↔ b.index = 1) := by
  rcases h with h | h <;>
    simp [DoubleBuffer.split_pos, DoubleBuffer.split, DoubleBuffer.swap,
      DoubleBuffer.split_ordered_pos, h]

/-- Witness for C4 at a concrete state with index 1. -/
theorem spec_c4_witness :
    (from_buffer ((5, 6) : Nat × Nat) 1).split = (5, 6) ∧
    (from_buffer ((5, 6) : Nat × Nat) 1).split_ordered_pos = (1, 0) :=
  ⟨(spec_c4 (from_buffer ((5, 6) : Nat × Nat) 1) (Or.inr rfl)).2.1,
   (spec_c4 (from_buffer ((5, 6) : Nat × Nat) 1) (Or.inr rfl)).2.2.2.2.1⟩

/-- Claim C8: with index in `{0,1}`, a mutation through `current_mut()`
leaves the value `next()` returns unchanged, and a mutation through
`next_mut()` leaves the value `current()` returns unchanged. -/
theorem spec_c8 {T : Type} (b : DoubleBuffer T) (g : T → T)
    (h : b.index = 0 ∨ b.index = 1) :
    (b.mutate_current g).bind DoubleBuffer.next = b.next ∧
    (b.mutate_next g).bind DoubleBuffer.current = b.current := by
  rcases h with h | h <;>
    simp [DoubleBuffer.mutate_current, DoubleBuffer.mutate_next,
      DoubleBuffer.current, DoubleBuffer.next, h]

/-- Witness for C8 at a concrete state. -/
theorem spec_c8_witness :
    ((from_buffer ((3, 4) : Nat × Nat) 0).mutate_current (fun x => x + 1)).bind
      DoubleBuffer.next = some 4 ∧
    ((from_buffer ((3, 4) : Nat × Nat) 0).mutate_next (fun x => x + 1)).bind
      DoubleBuffer.current = some 3 :=
  spec_c8 (from_buffer ((3, 4) : Nat × Nat) 0) (fun x => x + 1) (Or.inl rfl)

/-- A single state-changing operation keeps the selector in `{0,1}`. -/
lemma step_index {T : Type} (b : DoubleBuffer T) (op : Op T)
    (h : b.index = 0 ∨ b.index = 1) :
    (step b op).index = 0 ∨ (step b op).index = 1 := by
  cases op with
  | swapOp =>
      have e : (step b Op.swapOp).index = (1 % 256 + 256 - b.index % 256) % 256 := rfl
      omega
  | setIndexOp v =>
      have hv := v.isLt
      have e : (step b (Op.setIndexOp v)).index = v.val := rfl
      omega
  | currentMutOp g =>
      rcases h with h | h <;> simp [step, DoubleBuffer.mutate_current, h]
  | nextMutOp g =>
      rcases h with h | h <;> simp [step, DoubleBuffer.mutate_next, h]
  | bufferMutOp g => simpa [step] using h
  | splitMutOp g0 g1 => simpa [step] using h
  | applyOp f =>
      rcases h with h | h <;>
        simp [step, DoubleBuffer.applyState, DoubleBuffer.apply, h]

/-- A whole operation sequence keeps the selector in `{0,1}`. -/
lemma run_index {T : Type} (ops : List (Op T)) :
    ∀ b : DoubleBuffer T, b.index = 0 ∨ b.index = 1 →
      ((run b ops).index = 0 ∨ (run b ops).index = 1) := by
  induction ops with
  | nil => intro b h; simpa [run] using h
  | cons op tl ih =>
      intro b h
      simpa [run, List.foldl_cons] using ih (step b op) (step_index b op h)

/-- Claim C7: starting from any valid construction (`new`, default,
`From`/`Into`, or `from_buffer` with index in `{0,1}`) and applying any
sequence of operations other than `set_index` with an argument outside
`{0,1}`, the selector stays in `{0,1}`. -/
theorem spec_c7 {T : Type} (b : DoubleBuffer T) (ops : List (Op T))
    (v d : T) (p : T × T) (i : Nat) :
    ((b.index = 0 ∨ b.index = 1) →
      ((run b ops).index = 0 ∨ (run b ops).index = 1)) ∧
    (new v).index = 0 ∧ (defaultBuf d).index = 0 ∧
    (fromValue v).index = 0 ∧ (into_double_buf v).index = 0 ∧
    ((i = 0 ∨ i = 1) →
      ((from_buffer p i).index = 0 ∨ (from_buffer p i).index = 1)) :=
  ⟨run_index ops b, rfl, rfl, rfl, rfl, fun hi => hi⟩

/-- Witness for C7 on a concrete operation sequence. -/
theorem spec_c7_witness :
    ((run (new (0 : Nat)) [Op.swapOp, Op.applyOp (fun c n => c + n)]).index = 0 ∨
      (run (new (0 : Nat)) [Op.swapOp, Op.applyOp (fun c n => c + n)]).index = 1) ∧
    ((from_buffer ((1, 2) : Nat × Nat) 1).index = 0 ∨
      (from_buffer ((1, 2) : Nat × Nat) 1).index = 1) :=
  ⟨(spec_c7 (new (0 : Nat)) [Op.swapOp, Op.applyOp (fun c n => c + n)]
      0 0 (0, 0) 0).1 (Or.inl rfl),
   (spec_c7 (new (0 : Nat)) [] 0 0 ((1, 2) : Nat × Nat) 1).2.2.2.2.2 (Or.inr rfl)⟩

/-- Claim C10: for every selector value other than 0 — including invalid
values 2 and above — `split_ordered()` returns (slot 1, mutable slot 0)
exactly as it does when the index is 1, and neither `split_ordered()`
nor `apply(f)` panics (both are total, with the stated results). -/
theorem spec_c10 {T R : Type} (b : DoubleBuffer T) (f : T → T → T × R)
    (h : b.index ≠ 0) :
    b.split_ordered = (b.buffer.2, b.buffer.1) ∧
    b.split_ordered_pos = (1, 0) ∧
    b.split_ordered = (b.set_index 1).split_ordered ∧
    b.split_ordered_pos = (b.set_index 1).split_ordered_pos ∧
    (b.apply f).1.buffer = ((b.set_index 1).apply f).1.buffer ∧
    (b.apply f).2 = ((b.set_index 1).apply f).2 ∧
    b.apply f = ({ b with buffer := ((f b.buffer.2 b.buffer.1).1, b.buffer.2) },
      (f b.buffer.2 b.buffer.1).2) := by
  simp [DoubleBuffer.split_ordered, DoubleBuffer.split_ordered_pos,
    DoubleBuffer.apply, DoubleBuffer.set_index, h]

/-- Witness for C10 at the invalid selector value 5. -/
theorem spec_c10_witness :
    (from_buffer ((8, 9) : Nat × Nat) 5).split_ordered = (9, 8) ∧
    (from_buffer ((8, 9) : Nat × Nat) 5).split_ordered_pos = (1, 0) :=
  ⟨(spec_c10 (from_buffer ((8, 9) : Nat × Nat) 5) (fun c n => (c + n, 0))
      (by decide)).1,
   (spec_c10 (from_buffer ((8, 9) : Nat × Nat) 5) (fun c n => (c + n, 0))
      (by decide)).2.1⟩

end BevyDoubleRes
